import Mathlib

/-!
# Signature table of `lsteamclient/cppISteamClient_SteamClient014.h`

The header is one `extern "C"` block of 29 function declarations.  Each
declaration is embedded as a record of its return type, its symbol name and
its parameter types, in source order, and the whole header as the list of
those records.
-/

namespace SteamClient014

/-- C types that occur in the header.  Typedef names are kept as written in
the source; `constChar` is the pointee `const char` of `const char *`. -/
inductive CType where
  | void
  | bool
  | uint16
  | uint32
  | HSteamPipe
  | HSteamUser
  | EAccountType
  | SteamAPIWarningMessageHook_t
  | constChar
  | ptr (pointee : CType)
  deriving DecidableEq, Repr

/-- One `extern` function declaration: `extern ret name(params);`. -/
structure Decl where
  ret : CType
  name : String
  params : List CType
  deriving DecidableEq, Repr

open CType in
/-- The declarations of the header, lines 4 to 32, in source order. -/
def header : List Decl :=
  [ ⟨HSteamPipe, "cppISteamClient_SteamClient014_CreateSteamPipe", [ptr void]⟩,
    ⟨bool, "cppISteamClient_SteamClient014_BReleaseSteamPipe", [ptr void, HSteamPipe]⟩,
    ⟨HSteamUser, "cppISteamClient_SteamClient014_ConnectToGlobalUser", [ptr void, HSteamPipe]⟩,
    ⟨HSteamUser, "cppISteamClient_SteamClient014_CreateLocalUser",
      [ptr void, ptr HSteamPipe, EAccountType]⟩,
    ⟨void, "cppISteamClient_SteamClient014_ReleaseUser", [ptr void, HSteamPipe, HSteamUser]⟩,
    ⟨ptr void, "cppISteamClient_SteamClient014_GetISteamUser",
      [ptr void, HSteamUser, HSteamPipe, ptr constChar]⟩,
    ⟨ptr void, "cppISteamClient_SteamClient014_GetISteamGameServer",
      [ptr void, HSteamUser, HSteamPipe, ptr constChar]⟩,
    ⟨void, "cppISteamClient_SteamClient014_SetLocalIPBinding", [ptr void, uint32, uint16]⟩,
    ⟨ptr void, "cppISteamClient_SteamClient014_GetISteamFriends",
      [ptr void, HSteamUser, HSteamPipe, ptr constChar]⟩,
    ⟨ptr void, "cppISteamClient_SteamClient014_GetISteamUtils",
      [ptr void, HSteamPipe, ptr constChar]⟩,
    ⟨ptr void, "cppISteamClient_SteamClient014_GetISteamMatchmaking",
      [ptr void, HSteamUser, HSteamPipe, ptr constChar]⟩,
    ⟨ptr void, "cppISteamClient_SteamClient014_GetISteamMatchmakingServers",
      [ptr void, HSteamUser, HSteamPipe, ptr constChar]⟩,
    ⟨ptr void, "cppISteamClient_SteamClient014_GetISteamGenericInterface",
      [ptr void, HSteamUser, HSteamPipe, ptr constChar]⟩,
    ⟨ptr void, "cppISteamClient_SteamClient014_GetISteamUserStats",
      [ptr void, HSteamUser, HSteamPipe, ptr constChar]⟩,
    ⟨ptr void, "cppISteamClient_SteamClient014_GetISteamGameServerStats",
      [ptr void, HSteamUser, HSteamPipe, ptr constChar]⟩,
    ⟨ptr void, "cppISteamClient_SteamClient014_GetISteamApps",
      [ptr void, HSteamUser, HSteamPipe, ptr constChar]⟩,
    ⟨ptr void, "cppISteamClient_SteamClient014_GetISteamNetworking",
      [ptr void, HSteamUser, HSteamPipe, ptr constChar]⟩,
    ⟨ptr void, "cppISteamClient_SteamClient014_GetISteamRemoteStorage",
      [ptr void, HSteamUser, HSteamPipe, ptr constChar]⟩,
    ⟨ptr void, "cppISteamClient_SteamClient014_GetISteamScreenshots",
      [ptr void, HSteamUser, HSteamPipe, ptr constChar]⟩,
    ⟨void, "cppISteamClient_SteamClient014_RunFrame", [ptr void]⟩,
    ⟨uint32, "cppISteamClient_SteamClient014_GetIPCCallCount", [ptr void]⟩,
    ⟨void, "cppISteamClient_SteamClient014_SetWarningMessageHook",
      [ptr void, SteamAPIWarningMessageHook_t]⟩,
    ⟨bool, "cppISteamClient_SteamClient014_BShutdownIfAllPipesClosed", [ptr void]⟩,
    ⟨ptr void, "cppISteamClient_SteamClient014_GetISteamHTTP",
      [ptr void, HSteamUser, HSteamPipe, ptr constChar]⟩,
    ⟨ptr void, "cppISteamClient_SteamClient014_GetISteamUnifiedMessages",
      [ptr void, HSteamUser, HSteamPipe, ptr constChar]⟩,
    ⟨ptr void, "cppISteamClient_SteamClient014_GetISteamController",
      [ptr void, HSteamUser, HSteamPipe, ptr constChar]⟩,
    ⟨ptr void, "cppISteamClient_SteamClient014_GetISteamUGC",
      [ptr void, HSteamUser, HSteamPipe, ptr constChar]⟩,
    ⟨ptr void, "cppISteamClient_SteamClient014_GetISteamAppList",
      [ptr void, HSteamUser, HSteamPipe, ptr constChar]⟩,
    ⟨ptr void, "cppISteamClient_SteamClient014_GetISteamMusic",
      [ptr void, HSteamUser, HSteamPipe, ptr constChar]⟩ ]

/-- The fixed prefix of every exported symbol. -/
def symbolPrefix : String := "cppISteamClient_SteamClient014_"

/-- The operation part of a symbol name: what follows `symbolPrefix`, or
`none` when the name does not start with it. -/
def opName (sym : String) : Option (List Char) :=
  if symbolPrefix.toList.isPrefixOf sym.toList then
    some (sym.toList.drop symbolPrefix.toList.length)
  else none

/-- A declaration is an interface accessor when its operation name starts
with `GetISteam`. -/
def isAccessor (d : Decl) : Bool :=
  match opName d.name with
  | some op => "GetISteam".toList.isPrefixOf op
  | none => false

/-- The declaration of the symbol `symbolPrefix ++ op`, if the header has one
(the first one in source order). -/
def lookup (op : String) : Option Decl :=
  header.find? (fun d => d.name == symbolPrefix ++ op)

/-- The return type declared for operation `op`, if the header declares it. -/
def retOf (op : String) : Option CType :=
  (lookup op).map Decl.ret

/-- The parameter types declared for operation `op`, if the header declares it. -/
def paramsOf (op : String) : Option (List CType) :=
  (lookup op).map Decl.params

/-- The declarations of the header that are interface accessors, in source
order. -/
def accessors : List Decl :=
  header.filter isAccessor

end SteamClient014

/-!
## The forwarding layer

The header only declares the entry points; their bodies are in a translation
unit that is not part of the sources at hand.  The definitions below follow
the specification's description of them.  Values are modelled by their C
representation: handles and enumerations are integers, every pointer is an
address, and whatever a call reads or writes through a pointer (the version
string, the pipe handle that `CreateLocalUser` takes by reference) as well as
the vendor runtime's own state is part of the world state `σ` that each call
threads through.
-/

namespace SteamClient014.Shim

/-- An address: the value of any pointer argument or pointer result. -/
abbrev Ptr := Nat
/-- Value of a pipe handle, an opaque integer token. -/
abbrev HSteamPipe := Int
/-- Value of a user handle, an opaque integer token. -/
abbrev HSteamUser := Int
/-- Value of the account-type enumeration. -/
abbrev EAccountType := Int
/-- Value of an unsigned 32-bit argument or result. -/
abbrev uint32 := Nat
/-- Value of an unsigned 16-bit argument. -/
abbrev uint16 := Nat
/-- Value of a warning-hook callback pointer. -/
abbrev SteamAPIWarningMessageHook_t := Ptr

/-- Modelled from the spec: the vendor object behind the `void *` self
pointer, whose class is not in the sources.  Following the specification
("a capability interface with one method per declared operation"), it has one
method per declaration of the header; a method takes the operation's own
arguments (the declared parameters after the self pointer) and the world
state, and yields its result and the new world state. -/
structure ISteamClient (σ : Type) where
  CreateSteamPipe : σ → HSteamPipe × σ
  BReleaseSteamPipe : HSteamPipe → σ → Bool × σ
  ConnectToGlobalUser : HSteamPipe → σ → HSteamUser × σ
  CreateLocalUser : Ptr → EAccountType → σ → HSteamUser × σ
  ReleaseUser : HSteamPipe → HSteamUser → σ → Unit × σ
  GetISteamUser : HSteamUser → HSteamPipe → Ptr → σ → Ptr × σ
  GetISteamGameServer : HSteamUser → HSteamPipe → Ptr → σ → Ptr × σ
  SetLocalIPBinding : uint32 → uint16 → σ → Unit × σ
  GetISteamFriends : HSteamUser → HSteamPipe → Ptr → σ → Ptr × σ
  GetISteamUtils : HSteamPipe → Ptr → σ → Ptr × σ
  GetISteamMatchmaking : HSteamUser → HSteamPipe → Ptr → σ → Ptr × σ
  GetISteamMatchmakingServers : HSteamUser → HSteamPipe → Ptr → σ → Ptr × σ
  GetISteamGenericInterface : HSteamUser → HSteamPipe → Ptr → σ → Ptr × σ
  GetISteamUserStats : HSteamUser → HSteamPipe → Ptr → σ → Ptr × σ
  GetISteamGameServerStats : HSteamUser → HSteamPipe → Ptr → σ → Ptr × σ
  GetISteamApps : HSteamUser → HSteamPipe → Ptr → σ → Ptr × σ
  GetISteamNetworking : HSteamUser → HSteamPipe → Ptr → σ → Ptr × σ
  GetISteamRemoteStorage : HSteamUser → HSteamPipe → Ptr → σ → Ptr × σ
  GetISteamScreenshots : HSteamUser → HSteamPipe → Ptr → σ → Ptr × σ
  RunFrame : σ → Unit × σ
  GetIPCCallCount : σ → uint32 × σ
  SetWarningMessageHook : SteamAPIWarningMessageHook_t → σ → Unit × σ
  BShutdownIfAllPipesClosed : σ → Bool × σ
  GetISteamHTTP : HSteamUser → HSteamPipe → Ptr → σ → Ptr × σ
  GetISteamUnifiedMessages : HSteamUser → HSteamPipe → Ptr → σ → Ptr × σ
  GetISteamController : HSteamUser → HSteamPipe → Ptr → σ → Ptr × σ
  GetISteamUGC : HSteamUser → HSteamPipe → Ptr → σ → Ptr × σ
  GetISteamAppList : HSteamUser → HSteamPipe → Ptr → σ → Ptr × σ
  GetISteamMusic : HSteamUser → HSteamPipe → Ptr → σ → Ptr × σ

/-- Modelled from the spec: the body of `cppISteamClient_SteamClient014_CreateSteamPipe`,
which is not in the sources: "invoke the corresponding method on that object,
and return its result unchanged". -/
def cppISteamClient_SteamClient014_CreateSteamPipe {σ : Type} (linux_side : ISteamClient σ) :
    σ → HSteamPipe × σ :=
  linux_side.CreateSteamPipe

/-- Modelled from the spec: the body of `cppISteamClient_SteamClient014_BReleaseSteamPipe`,
which is not in the sources: "invoke the corresponding method on that object,
and return its result unchanged". -/
def cppISteamClient_SteamClient014_BReleaseSteamPipe {σ : Type} (linux_side : ISteamClient σ) :
    HSteamPipe → σ → Bool × σ :=
  linux_side.BReleaseSteamPipe

/-- Modelled from the spec: the body of `cppISteamClient_SteamClient014_ConnectToGlobalUser`,
which is not in the sources: "invoke the corresponding method on that object,
and return its result unchanged". -/
def cppISteamClient_SteamClient014_ConnectToGlobalUser {σ : Type} (linux_side : ISteamClient σ) :
    HSteamPipe → σ → HSteamUser × σ :=
  linux_side.ConnectToGlobalUser

/-- Modelled from the spec: the body of `cppISteamClient_SteamClient014_CreateLocalUser`,
which is not in the sources: "invoke the corresponding method on that object,
and return its result unchanged". -/
def cppISteamClient_SteamClient014_CreateLocalUser {σ : Type} (linux_side : ISteamClient σ) :
    Ptr → EAccountType → σ → HSteamUser × σ :=
  linux_side.CreateLocalUser

/-- Modelled from the spec: the body of `cppISteamClient_SteamClient014_ReleaseUser`,
which is not in the sources: "invoke the corresponding method on that object,
and return its result unchanged". -/
def cppISteamClient_SteamClient014_ReleaseUser {σ : Type} (linux_side : ISteamClient σ) :
    HSteamPipe → HSteamUser → σ → Unit × σ :=
  linux_side.ReleaseUser

/-- Modelled from the spec: the body of `cppISteamClient_SteamClient014_GetISteamUser`,
which is not in the sources: "invoke the corresponding method on that object,
and return its result unchanged". -/
def cppISteamClient_SteamClient014_GetISteamUser {σ : Type} (linux_side : ISteamClient σ) :
    HSteamUser → HSteamPipe → Ptr → σ → Ptr × σ :=
  linux_side.GetISteamUser

/-- Modelled from the spec: the body of `cppISteamClient_SteamClient014_GetISteamGameServer`,
which is not in the sources: "invoke the corresponding method on that object,
and return its result unchanged". -/
def cppISteamClient_SteamClient014_GetISteamGameServer {σ : Type} (linux_side : ISteamClient σ) :
    HSteamUser → HSteamPipe → Ptr → σ → Ptr × σ :=
  linux_side.GetISteamGameServer

/-- Modelled from the spec: the body of `cppISteamClient_SteamClient014_SetLocalIPBinding`,
which is not in the sources: "invoke the corresponding method on that object,
and return its result unchanged". -/
def cppISteamClient_SteamClient014_SetLocalIPBinding {σ : Type} (linux_side : ISteamClient σ) :
    uint32 → uint16 → σ → Unit × σ :=
  linux_side.SetLocalIPBinding

/-- Modelled from the spec: the body of `cppISteamClient_SteamClient014_GetISteamFriends`,
which is not in the sources: "invoke the corresponding method on that object,
and return its result unchanged". -/
def cppISteamClient_SteamClient014_GetISteamFriends {σ : Type} (linux_side : ISteamClient σ) :
    HSteamUser → HSteamPipe → Ptr → σ → Ptr × σ :=
  linux_side.GetISteamFriends

/-- Modelled from the spec: the body of `cppISteamClient_SteamClient014_GetISteamUtils`,
which is not in the sources: "invoke the corresponding method on that object,
and return its result unchanged". -/
def cppISteamClient_SteamClient014_GetISteamUtils {σ : Type} (linux_side : ISteamClient σ) :
    HSteamPipe → Ptr → σ → Ptr × σ :=
  linux_side.GetISteamUtils

/-- Modelled from the spec: the body of `cppISteamClient_SteamClient014_GetISteamMatchmaking`,
which is not in the sources: "invoke the corresponding method on that object,
and return its result unchanged". -/
def cppISteamClient_SteamClient014_GetISteamMatchmaking {σ : Type} (linux_side : ISteamClient σ) :
    HSteamUser → HSteamPipe → Ptr → σ → Ptr × σ :=
  linux_side.GetISteamMatchmaking

/-- Modelled from the spec: the body of `cppISteamClient_SteamClient014_GetISteamMatchmakingServers`,
which is not in the sources: "invoke the corresponding method on that object,
and return its result unchanged". -/
def cppISteamClient_SteamClient014_GetISteamMatchmakingServers {σ : Type} (linux_side : ISteamClient σ) :
    HSteamUser → HSteamPipe → Ptr → σ → Ptr × σ :=
  linux_side.GetISteamMatchmakingServers

/-- Modelled from the spec: the body of `cppISteamClient_SteamClient014_GetISteamGenericInterface`,
which is not in the sources: "invoke the corresponding method on that object,
and return its result unchanged". -/
def cppISteamClient_SteamClient014_GetISteamGenericInterface {σ : Type} (linux_side : ISteamClient σ) :
    HSteamUser → HSteamPipe → Ptr → σ → Ptr × σ :=
  linux_side.GetISteamGenericInterface

/-- Modelled from the spec: the body of `cppISteamClient_SteamClient014_GetISteamUserStats`,
which is not in the sources: "invoke the corresponding method on that object,
and return its result unchanged". -/
def cppISteamClient_SteamClient014_GetISteamUserStats {σ : Type} (linux_side : ISteamClient σ) :
    HSteamUser → HSteamPipe → Ptr → σ → Ptr × σ :=
  linux_side.GetISteamUserStats

/-- Modelled from the spec: the body of `cppISteamClient_SteamClient014_GetISteamGameServerStats`,
which is not in the sources: "invoke the corresponding method on that object,
and return its result unchanged". -/
def cppISteamClient_SteamClient014_GetISteamGameServerStats {σ : Type} (linux_side : ISteamClient σ) :
    HSteamUser → HSteamPipe → Ptr → σ → Ptr × σ :=
  linux_side.GetISteamGameServerStats

/-- Modelled from the spec: the body of `cppISteamClient_SteamClient014_GetISteamApps`,
which is not in the sources: "invoke the corresponding method on that object,
and return its result unchanged". -/
def cppISteamClient_SteamClient014_GetISteamApps {σ : Type} (linux_side : ISteamClient σ) :
    HSteamUser → HSteamPipe → Ptr → σ → Ptr × σ :=
  linux_side.GetISteamApps

/-- Modelled from the spec: the body of `cppISteamClient_SteamClient014_GetISteamNetworking`,
which is not in the sources: "invoke the corresponding method on that object,
and return its result unchanged". -/
def cppISteamClient_SteamClient014_GetISteamNetworking {σ : Type} (linux_side : ISteamClient σ) :
    HSteamUser → HSteamPipe → Ptr → σ → Ptr × σ :=
  linux_side.GetISteamNetworking

/-- Modelled from the spec: the body of `cppISteamClient_SteamClient014_GetISteamRemoteStorage`,
which is not in the sources: "invoke the corresponding method on that object,
and return its result unchanged". -/
def cppISteamClient_SteamClient014_GetISteamRemoteStorage {σ : Type} (linux_side : ISteamClient σ) :
    HSteamUser → HSteamPipe → Ptr → σ → Ptr × σ :=
  linux_side.GetISteamRemoteStorage

/-- Modelled from the spec: the body of `cppISteamClient_SteamClient014_GetISteamScreenshots`,
which is not in the sources: "invoke the corresponding method on that object,
and return its result unchanged". -/
def cppISteamClient_SteamClient014_GetISteamScreenshots {σ : Type} (linux_side : ISteamClient σ) :
    HSteamUser → HSteamPipe → Ptr → σ → Ptr × σ :=
  linux_side.GetISteamScreenshots

/-- Modelled from the spec: the body of `cppISteamClient_SteamClient014_RunFrame`,
which is not in the sources: "invoke the corresponding method on that object,
and return its result unchanged". -/
def cppISteamClient_SteamClient014_RunFrame {σ : Type} (linux_side : ISteamClient σ) :
    σ → Unit × σ :=
  linux_side.RunFrame

/-- Modelled from the spec: the body of `cppISteamClient_SteamClient014_GetIPCCallCount`,
which is not in the sources: "invoke the corresponding method on that object,
and return its result unchanged". -/
def cppISteamClient_SteamClient014_GetIPCCallCount {σ : Type} (linux_side : ISteamClient σ) :
    σ → uint32 × σ :=
  linux_side.GetIPCCallCount

/-- Modelled from the spec: the body of `cppISteamClient_SteamClient014_SetWarningMessageHook`,
which is not in the sources: "invoke the corresponding method on that object,
and return its result unchanged". -/
def cppISteamClient_SteamClient014_SetWarningMessageHook {σ : Type} (linux_side : ISteamClient σ) :
    SteamAPIWarningMessageHook_t → σ → Unit × σ :=
  linux_side.SetWarningMessageHook

/-- Modelled from the spec: the body of `cppISteamClient_SteamClient014_BShutdownIfAllPipesClosed`,
which is not in the sources: "invoke the corresponding method on that object,
and return its result unchanged". -/
def cppISteamClient_SteamClient014_BShutdownIfAllPipesClosed {σ : Type} (linux_side : ISteamClient σ) :
    σ → Bool × σ :=
  linux_side.BShutdownIfAllPipesClosed

/-- Modelled from the spec: the body of `cppISteamClient_SteamClient014_GetISteamHTTP`,
which is not in the sources: "invoke the corresponding method on that object,
and return its result unchanged". -/
def cppISteamClient_SteamClient014_GetISteamHTTP {σ : Type} (linux_side : ISteamClient σ) :
    HSteamUser → HSteamPipe → Ptr → σ → Ptr × σ :=
  linux_side.GetISteamHTTP

/-- Modelled from the spec: the body of `cppISteamClient_SteamClient014_GetISteamUnifiedMessages`,
which is not in the sources: "invoke the corresponding method on that object,
and return its result unchanged". -/
def cppISteamClient_SteamClient014_GetISteamUnifiedMessages {σ : Type} (linux_side : ISteamClient σ) :
    HSteamUser → HSteamPipe → Ptr → σ → Ptr × σ :=
  linux_side.GetISteamUnifiedMessages

/-- Modelled from the spec: the body of `cppISteamClient_SteamClient014_GetISteamController`,
which is not in the sources: "invoke the corresponding method on that object,
and return its result unchanged". -/
def cppISteamClient_SteamClient014_GetISteamController {σ : Type} (linux_side : ISteamClient σ) :
    HSteamUser → HSteamPipe → Ptr → σ → Ptr × σ :=
  linux_side.GetISteamController

/-- Modelled from the spec: the body of `cppISteamClient_SteamClient014_GetISteamUGC`,
which is not in the sources: "invoke the corresponding method on that object,
and return its result unchanged". -/
def cppISteamClient_SteamClient014_GetISteamUGC {σ : Type} (linux_side : ISteamClient σ) :
    HSteamUser → HSteamPipe → Ptr → σ → Ptr × σ :=
  linux_side.GetISteamUGC

/-- Modelled from the spec: the body of `cppISteamClient_SteamClient014_GetISteamAppList`,
which is not in the sources: "invoke the corresponding method on that object,
and return its result unchanged". -/
def cppISteamClient_SteamClient014_GetISteamAppList {σ : Type} (linux_side : ISteamClient σ) :
    HSteamUser → HSteamPipe → Ptr → σ → Ptr × σ :=
  linux_side.GetISteamAppList

/-- Modelled from the spec: the body of `cppISteamClient_SteamClient014_GetISteamMusic`,
which is not in the sources: "invoke the corresponding method on that object,
and return its result unchanged". -/
def cppISteamClient_SteamClient014_GetISteamMusic {σ : Type} (linux_side : ISteamClient σ) :
    HSteamUser → HSteamPipe → Ptr → σ → Ptr × σ :=
  linux_side.GetISteamMusic

end SteamClient014.Shim

/-!
## Theorems
-/

namespace SteamClient014.Shim

/-- C1: for each of the 29 declared operations, for every vendor object, the
entry point applied to that object is the object's method of the same name:
on all arguments and in every world state it yields the same result and the
same new state as the direct call, with no transformation of arguments or
result. -/
theorem forwarding_is_pure (σ : Type) (linux_side : ISteamClient σ) :
    cppISteamClient_SteamClient014_CreateSteamPipe linux_side = linux_side.CreateSteamPipe ∧
    cppISteamClient_SteamClient014_BReleaseSteamPipe linux_side = linux_side.BReleaseSteamPipe ∧
    cppISteamClient_SteamClient014_ConnectToGlobalUser linux_side = linux_side.ConnectToGlobalUser ∧
    cppISteamClient_SteamClient014_CreateLocalUser linux_side = linux_side.CreateLocalUser ∧
    cppISteamClient_SteamClient014_ReleaseUser linux_side = linux_side.ReleaseUser ∧
    cppISteamClient_SteamClient014_GetISteamUser linux_side = linux_side.GetISteamUser ∧
    cppISteamClient_SteamClient014_GetISteamGameServer linux_side = linux_side.GetISteamGameServer ∧
    cppISteamClient_SteamClient014_SetLocalIPBinding linux_side = linux_side.SetLocalIPBinding ∧
    cppISteamClient_SteamClient014_GetISteamFriends linux_side = linux_side.GetISteamFriends ∧
    cppISteamClient_SteamClient014_GetISteamUtils linux_side = linux_side.GetISteamUtils ∧
    cppISteamClient_SteamClient014_GetISteamMatchmaking linux_side = linux_side.GetISteamMatchmaking ∧
    cppISteamClient_SteamClient014_GetISteamMatchmakingServers linux_side = linux_side.GetISteamMatchmakingServers ∧
    cppISteamClient_SteamClient014_GetISteamGenericInterface linux_side = linux_side.GetISteamGenericInterface ∧
    cppISteamClient_SteamClient014_GetISteamUserStats linux_side = linux_side.GetISteamUserStats ∧
    cppISteamClient_SteamClient014_GetISteamGameServerStats linux_side = linux_side.GetISteamGameServerStats ∧
    cppISteamClient_SteamClient014_GetISteamApps linux_side = linux_side.GetISteamApps ∧
    cppISteamClient_SteamClient014_GetISteamNetworking linux_side = linux_side.GetISteamNetworking ∧
    cppISteamClient_SteamClient014_GetISteamRemoteStorage linux_side = linux_side.GetISteamRemoteStorage ∧
    cppISteamClient_SteamClient014_GetISteamScreenshots linux_side = linux_side.GetISteamScreenshots ∧
    cppISteamClient_SteamClient014_RunFrame linux_side = linux_side.RunFrame ∧
    cppISteamClient_SteamClient014_GetIPCCallCount linux_side = linux_side.GetIPCCallCount ∧
    cppISteamClient_SteamClient014_SetWarningMessageHook linux_side = linux_side.SetWarningMessageHook ∧
    cppISteamClient_SteamClient014_BShutdownIfAllPipesClosed linux_side = linux_side.BShutdownIfAllPipesClosed ∧
    cppISteamClient_SteamClient014_GetISteamHTTP linux_side = linux_side.GetISteamHTTP ∧
    cppISteamClient_SteamClient014_GetISteamUnifiedMessages linux_side = linux_side.GetISteamUnifiedMessages ∧
    cppISteamClient_SteamClient014_GetISteamController linux_side = linux_side.GetISteamController ∧
    cppISteamClient_SteamClient014_GetISteamUGC linux_side = linux_side.GetISteamUGC ∧
    cppISteamClient_SteamClient014_GetISteamAppList linux_side = linux_side.GetISteamAppList ∧
    cppISteamClient_SteamClient014_GetISteamMusic linux_side = linux_side.GetISteamMusic := by
  refine ⟨?_, ?_, ?_, ?_, ?_, ?_, ?_, ?_, ?_, ?_, ?_, ?_, ?_, ?_, ?_, ?_, ?_, ?_, ?_, ?_, ?_, ?_, ?_, ?_, ?_, ?_, ?_, ?_, ?_⟩ <;> rfl

end SteamClient014.Shim

namespace SteamClient014

open CType

/-- Every operation name the header yields comes from a symbol that is the
prefix followed by that name. -/
theorem opName_eq_some {sym : String} {op : List Char} (h : opName sym = some op) :
    sym.toList = symbolPrefix.toList ++ op := by
  unfold opName at h
  split at h
  · rename_i hp
    obtain ⟨t, ht⟩ := List.isPrefixOf_iff_prefix.mp hp
    cases h
    rw [← ht, List.drop_left]
  · cases h

/-- C2, as stated, fails: `GetISteamUtils` is a declared accessor whose
parameters are the vendor pointer, a pipe handle and the version string,
with no user handle, so not every accessor has the four-parameter shape. -/
theorem accessor_shape_not_uniform :
    ¬ ∀ d ∈ header, isAccessor d = true →
        d.ret = ptr void ∧ d.params = [ptr void, HSteamUser, HSteamPipe, ptr constChar] := by
  decide

/-- C2, amended: every accessor returns `void *`; `GetISteamUtils` takes the
vendor pointer, a pipe handle and the version string; every other accessor
takes the vendor pointer, a user handle, a pipe handle and the version
string, in that order. -/
theorem accessor_shape :
    ∀ d ∈ header, isAccessor d = true →
      d.ret = ptr void ∧
      (opName d.name = some "GetISteamUtils".toList →
        d.params = [ptr void, HSteamPipe, ptr constChar]) ∧
      (opName d.name ≠ some "GetISteamUtils".toList →
        d.params = [ptr void, HSteamUser, HSteamPipe, ptr constChar]) := by
  decide

/-- The amended C2 at the `GetISteamUtils` declaration of line 13, the one
accessor without a user handle. -/
theorem accessor_shape_witness :
    (⟨ptr void, "cppISteamClient_SteamClient014_GetISteamUtils",
        [ptr void, HSteamPipe, ptr constChar]⟩ : Decl) ∈ header ∧
    isAccessor ⟨ptr void, "cppISteamClient_SteamClient014_GetISteamUtils",
        [ptr void, HSteamPipe, ptr constChar]⟩ = true ∧
    opName "cppISteamClient_SteamClient014_GetISteamUtils" = some "GetISteamUtils".toList ∧
    (opName "cppISteamClient_SteamClient014_GetISteamUtils" = some "GetISteamUtils".toList →
      [ptr void, HSteamPipe, ptr constChar] = [ptr void, HSteamPipe, ptr constChar]) :=
  ⟨by decide, by decide, by decide,
    (accessor_shape ⟨ptr void, "cppISteamClient_SteamClient014_GetISteamUtils",
        [ptr void, HSteamPipe, ptr constChar]⟩ (by decide) (by decide)).2.1⟩

/-- C3: every declared symbol is the prefix `cppISteamClient_SteamClient014_`
followed by a non-empty operation name. -/
theorem symbol_names_have_prefix :
    ∀ d ∈ header, ∃ op : String, op ≠ "" ∧ d.name = symbolPrefix ++ op := by
  intro d hd
  have h : ∀ d ∈ header,
      String.mk (d.name.toList.drop symbolPrefix.length) ≠ "" ∧
      d.name = symbolPrefix ++ String.mk (d.name.toList.drop symbolPrefix.length) := by
    decide
  exact ⟨_, h d hd⟩

/-- C3 at the `RunFrame` declaration of line 23. -/
theorem symbol_names_have_prefix_witness :
    (⟨void, "cppISteamClient_SteamClient014_RunFrame", [ptr void]⟩ : Decl) ∈ header ∧
    ∃ op : String, op ≠ "" ∧
      "cppISteamClient_SteamClient014_RunFrame" = symbolPrefix ++ op :=
  ⟨by decide,
    symbol_names_have_prefix ⟨void, "cppISteamClient_SteamClient014_RunFrame", [ptr void]⟩
      (by decide)⟩

/-- C4: every declaration has a non-empty parameter list whose first
parameter is the vendor-object pointer `void *`; the rest are the
operation's own arguments. -/
theorem first_param_is_self :
    ∀ d ∈ header, ∃ args : List CType, d.params = ptr void :: args := by
  intro d hd
  have h : ∀ d ∈ header, d.params = ptr void :: d.params.tail := by decide
  exact ⟨_, h d hd⟩

/-- C4 at the `SetLocalIPBinding` declaration of line 11. -/
theorem first_param_is_self_witness :
    (⟨void, "cppISteamClient_SteamClient014_SetLocalIPBinding",
        [ptr void, uint32, uint16]⟩ : Decl) ∈ header ∧
    ∃ args : List CType, [ptr void, uint32, uint16] = ptr void :: args :=
  ⟨by decide,
    first_param_is_self
      ⟨void, "cppISteamClient_SteamClient014_SetLocalIPBinding", [ptr void, uint32, uint16]⟩
      (by decide)⟩

/-- C5: `ConnectToGlobalUser` and `CreateLocalUser` both return `HSteamUser`;
`CreateLocalUser` takes its pipe handle by reference (`HSteamPipe *`) while
`ConnectToGlobalUser` takes it by value (`HSteamPipe`); `ReleaseUser` takes a
pipe handle and a user handle and returns `void`. -/
theorem user_lifecycle_signatures :
    retOf "ConnectToGlobalUser" = some HSteamUser ∧
    paramsOf "ConnectToGlobalUser" = some [ptr void, HSteamPipe] ∧
    retOf "CreateLocalUser" = some HSteamUser ∧
    paramsOf "CreateLocalUser" = some [ptr void, ptr HSteamPipe, EAccountType] ∧
    retOf "ReleaseUser" = some void ∧
    paramsOf "ReleaseUser" = some [ptr void, HSteamPipe, HSteamUser] := by
  decide

/-- C6: `CreateSteamPipe` takes only the vendor object and returns
`HSteamPipe`, with no further output parameter; `BReleaseSteamPipe` takes the
vendor object and one pipe handle and returns `bool`. -/
theorem pipe_lifecycle_signatures :
    retOf "CreateSteamPipe" = some HSteamPipe ∧
    paramsOf "CreateSteamPipe" = some [ptr void] ∧
    retOf "BReleaseSteamPipe" = some bool ∧
    paramsOf "BReleaseSteamPipe" = some [ptr void, HSteamPipe] := by
  decide

/-- C7: the type `CreateSteamPipe` returns is `HSteamPipe`, and it is exactly
the pipe-handle parameter type of `BReleaseSteamPipe`, `ConnectToGlobalUser`,
`ReleaseUser` and of every accessor; the type `ConnectToGlobalUser` and
`CreateLocalUser` return is `HSteamUser`, and it is exactly the user-handle
parameter type of `ReleaseUser` and of every accessor that takes a user
handle.  The handles are passed by value, so a created handle is accepted
unchanged. -/
theorem handle_types_round_trip :
    ∃ pipe user : CType,
      pipe = HSteamPipe ∧ user = HSteamUser ∧
      retOf "CreateSteamPipe" = some pipe ∧
      retOf "ConnectToGlobalUser" = some user ∧
      retOf "CreateLocalUser" = some user ∧
      paramsOf "BReleaseSteamPipe" = some [ptr void, pipe] ∧
      paramsOf "ConnectToGlobalUser" = some [ptr void, pipe] ∧
      paramsOf "ReleaseUser" = some [ptr void, pipe, user] ∧
      ∀ d ∈ accessors,
        d.params = [ptr void, user, pipe, ptr constChar] ∨
        d.params = [ptr void, pipe, ptr constChar] := by
  refine ⟨HSteamPipe, HSteamUser, ?_⟩
  decide

/-- C8: `RunFrame` takes only the vendor object and returns `void`;
`GetIPCCallCount` takes only the vendor object and returns `uint32`;
`SetWarningMessageHook` takes the vendor object and one
`SteamAPIWarningMessageHook_t` and returns `void`;
`BShutdownIfAllPipesClosed` takes only the vendor object and returns
`bool`. -/
theorem runtime_maintenance_signatures :
    lookup "RunFrame" =
      some ⟨void, "cppISteamClient_SteamClient014_RunFrame", [ptr void]⟩ ∧
    lookup "GetIPCCallCount" =
      some ⟨uint32, "cppISteamClient_SteamClient014_GetIPCCallCount", [ptr void]⟩ ∧
    lookup "SetWarningMessageHook" =
      some ⟨void, "cppISteamClient_SteamClient014_SetWarningMessageHook",
        [ptr void, SteamAPIWarningMessageHook_t]⟩ ∧
    lookup "BShutdownIfAllPipesClosed" =
      some ⟨bool, "cppISteamClient_SteamClient014_BShutdownIfAllPipesClosed", [ptr void]⟩ := by
  decide

/-- C9: the header declares 19 interface accessors (roughly twenty), and
each of the thirteen sub-interfaces the specification names has its
accessor among them. -/
theorem accessor_family :
    accessors.length = 19 ∧
    ∀ op ∈ ["GetISteamFriends", "GetISteamMatchmaking", "GetISteamUserStats",
        "GetISteamApps", "GetISteamNetworking", "GetISteamRemoteStorage",
        "GetISteamScreenshots", "GetISteamHTTP", "GetISteamUnifiedMessages",
        "GetISteamController", "GetISteamUGC", "GetISteamAppList", "GetISteamMusic"],
      ∃ d ∈ accessors, d.name = symbolPrefix ++ op := by
  decide

/-- C10: the header has 29 declarations whose symbol names are pairwise
distinct, so two declarations of the same name are the same declaration and
a name has one signature. -/
theorem symbol_names_distinct :
    header.length = 29 ∧ (header.map Decl.name).Nodup ∧
    ∀ d₁ ∈ header, ∀ d₂ ∈ header, d₁.name = d₂.name → d₁ = d₂ := by
  have hnd : (header.map Decl.name).Nodup := by decide
  exact ⟨by decide, hnd, fun d₁ h₁ d₂ h₂ h => List.inj_on_of_nodup_map hnd h₁ h₂ h⟩

end SteamClient014
